import Mathlib

/-!
Verification of the Marvel API client (api_request.py, configuration.py,
main.py) against its natural-language specification.

The Python code is shallowly embedded: Python dicts of string parameters
become association lists with insert-or-overwrite semantics, the urllib3
transport becomes a function from the sent parameter dictionary to a
transport result (an HTTP status with a parsed JSON body, or a raised
transport exception), and raised exceptions become `Except` errors.  The
MD5 digest function from Python's hashlib is external to the repository
and is modelled as an abstract function parameter `md5hex`; the source
determines only which string is hashed and where the digest is placed.
-/

/-- Python dict lookup `d[k]` for an association list: value of the first
entry with the given key. -/
def dictGet {α : Type} (d : List (String × α)) (k : String) : Option α :=
  (d.find? (fun p => p.1 == k)).map (fun p => p.2)

/-- Python membership test `k in d`. -/
def dictHasKey {α : Type} (d : List (String × α)) (k : String) : Bool :=
  d.any (fun p => p.1 == k)

/-- Python dict assignment `d[k] = v`: overwrite in place when the key is
present, otherwise append a new entry (insertion order preserved). -/
def dictInsert {α : Type} (d : List (String × α)) (k : String) (v : α) : List (String × α) :=
  if d.any (fun p => p.1 == k) then
    d.map (fun p => if p.1 == k then (k, v) else p)
  else
    d ++ [(k, v)]

/-- The loop `for it in request_parms: res[it] = request_parms[it]`
from `ApiRequest.__addAuthParms`. -/
def dictUpdate {α : Type} (d : List (String × α)) (parms : List (String × α)) : List (String × α) :=
  parms.foldl (fun r p => dictInsert r p.1 p.2) d

/-- Configuration.getParm from configuration.py: the stored value when the
parameter name is present in the loaded configuration, otherwise None. -/
def getParm {α : Type} (parms : List (String × α)) (parm : String) : Option α :=
  if dictHasKey parms parm then dictGet parms parm else none

/-- ApiRequest.__addAuthParms from api_request.py.  `md5hex` stands for
hashlib's lowercase hexadecimal MD5 digest, `ts` for `str(time.time())`,
and `priv`/`pub` for the private_key/public_key configuration values. -/
def addAuthParms (md5hex : String → String) (ts priv pub : String)
    (request_parms : List (String × String)) : List (String × String) :=
  let hashbase := ts ++ priv ++ pub
  let hashdigest := md5hex hashbase
  let res := [("ts", ts), ("hash", hashdigest), ("apikey", pub)]
  dictUpdate res request_parms

/-- Outcome of one call to the urllib3 transport: an HTTP response with a
status and an already-parsed JSON body, or a raised transport exception
carrying its message. -/
inductive TransportResult (α : Type) where
  | response (status : Int) (body : α)
  | failure (cause : String)
deriving DecidableEq

/-- Errors of the client.  The source has the single class
ApiCommunicationError; following the spec's error taxonomy the embedding
tags each raise site: `communication` for transport-level failures and
non-200 statuses, `notFound` for well-formed responses with zero
matching resources.  `indexError` models Python's IndexError raised by
`results[0]` on an empty list. -/
inductive ApiError where
  | communication (message : String)
  | notFound (message : String)
  | indexError
deriving DecidableEq

/-- Message built by ApiRequest.__apiRequest for a non-200 status. -/
def httpStatusMsg (status : Int) : String :=
  "Failed to retrieve data from Marvel, HTTP Status " ++ toString status

/-- ApiRequest.__apiRequest: sign the parameters, send them to the
transport, raise on a non-200 status, otherwise return the parsed body.
An exception raised by the transport itself is not caught anywhere in the
source and propagates; per the spec's taxonomy it is a communication
error carrying its cause. -/
def apiRequest {α : Type} (md5hex : String → String) (priv pub ts : String)
    (server : List (String × String) → TransportResult α)
    (parms : List (String × String)) : Except ApiError α :=
  let authparms := addAuthParms md5hex ts priv pub parms
  match server authparms with
  | .failure cause => .error (.communication cause)
  | .response status body =>
      if status ≠ 200 then
        .error (.communication (httpStatusMsg status))
      else
        .ok body

/-- A character as returned by the characters endpoint; the source reads
its `id`, and returns whole character objects from URL lookups. -/
structure Character where
  id : Int
  name : String
deriving DecidableEq

/-- The `data` member of a characters response: the source reads `count`
and `results`. -/
structure CharactersData where
  count : Int
  results : List Character
deriving DecidableEq

/-- Parsed JSON envelope of a characters response. -/
structure CharactersEnvelope where
  data : CharactersData
deriving DecidableEq

/-- A story reference from the stories list endpoint; the source reads its
`id`. -/
structure StoryRef where
  id : Int
deriving DecidableEq

/-- The `data` member of a stories list response: the source reads `total`
and `results`. -/
structure StoriesData where
  total : Int
  results : List StoryRef
deriving DecidableEq

/-- Parsed JSON envelope of a stories list response. -/
structure StoriesEnvelope where
  data : StoriesData
deriving DecidableEq

/-- A creator entry of a story (name and role). -/
structure CreatorItem where
  name : String
  role : String
deriving DecidableEq

/-- A named entry (series and events items). -/
structure NamedItem where
  name : String
deriving DecidableEq

/-- A story object from the story endpoint.  `attributionHTML` is an
optional key of the object: absent in the raw API result, set by
getStoryData (overwriting any value the nested object may carry). -/
structure RawStory where
  title : String
  description : String
  creators : List CreatorItem
  series : List NamedItem
  events : List NamedItem
  attributionHTML : Option String
deriving DecidableEq

/-- The `data` member of a single-story response: the source reads `count`
and `results`. -/
structure StoryDetailData where
  count : Int
  results : List RawStory
deriving DecidableEq

/-- Parsed JSON envelope of a single-story response; the source reads the
top-level `attributionHTML` alongside `data`. -/
structure StoryEnvelope where
  data : StoryDetailData
  attributionHTML : String
deriving DecidableEq

/-- ApiRequest.getCharacterId: query the characters endpoint filtered by
name; raise when fewer than one result is reported, otherwise return the
first result's id. -/
def getCharacterId (md5hex : String → String) (priv pub ts : String)
    (cserver : List (String × String) → TransportResult CharactersEnvelope)
    (character_name : String) : Except ApiError Int :=
  match apiRequest md5hex priv pub ts cserver [("name", character_name)] with
  | .error e => .error e
  | .ok result =>
      if result.data.count < 1 then
        .error (.notFound ("No character with the name " ++ character_name ++ " found"))
      else
        match result.data.results with
        | [] => .error .indexError
        | r :: _ => .ok r.id

/-- ApiRequest.getCharacterInfoFromUrl: GET the given character URL with no
extra parameters and return the first result object. -/
def getCharacterInfoFromUrl (md5hex : String → String) (priv pub ts : String)
    (userver : List (String × String) → TransportResult CharactersEnvelope) :
    Except ApiError Character :=
  match apiRequest md5hex priv pub ts userver [] with
  | .error e => .error e
  | .ok result =>
      match result.data.results with
      | [] => .error .indexError
      | r :: _ => .ok r

deriving instance DecidableEq for Except

/-- Result of one run of the stories pagination: the parameter
dictionaries of the requests issued, in order (before signing), and the
outcome.  Python's `getCharacterStories` can fall off the end of its loop
without hitting a return statement, which yields None; that is the
`.ok none` outcome. -/
structure StoriesRun where
  requests : List (List (String × String))
  outcome : Except ApiError (Option (List Int))
deriving DecidableEq

/-- Body of the `for it in range(total_steps)` loop of
ApiRequest.getCharacterStories.  The body appends the current page's ids,
issues the next-page request, and then unconditionally executes
`return story_ids` — the return statement is indented inside the loop in
the source, so no second iteration can ever run and no recursive call is
needed.  Falling off the loop (when `steps = 0`, impossible at the call
site) ends the function without a return, i.e. Python returns None. -/
def storiesLoop (md5hex : String → String) (priv pub ts1 : String)
    (sserver : List (String × String) → TransportResult StoriesEnvelope)
    (steps it : Nat) (ids : List Int) (result : StoriesEnvelope)
    (reqs : List (List (String × String))) : StoriesRun :=
  if it < steps then
    let story_ids := ids ++ result.data.results.map (fun sit => sit.id)
    let parms := [("limit", "100"), ("offset", toString ((it + 1) * 100))]
    match apiRequest md5hex priv pub ts1 sserver parms with
    | .error e => ⟨reqs ++ [parms], .error e⟩
    | .ok _result => ⟨reqs ++ [parms], .ok (some story_ids)⟩
  else
    ⟨reqs, .ok none⟩

/-- ApiRequest.getCharacterStories: fetch the first page (limit 100),
raise when the reported total is below one, otherwise run the pagination
loop.  `clock n` is the `str(time.time())` value of the n-th request
(a fresh timestamp is generated inside each __apiRequest call). -/
def getCharacterStories (md5hex : String → String) (priv pub : String)
    (clock : Nat → String)
    (sserver : List (String × String) → TransportResult StoriesEnvelope)
    (character_id : Int) : StoriesRun :=
  let parms0 := [("limit", "100")]
  match apiRequest md5hex priv pub (clock 0) sserver parms0 with
  | .error e => ⟨[parms0], .error e⟩
  | .ok result =>
      let total_stories := result.data.total
      if total_stories < 1 then
        ⟨[parms0], .error (.notFound ("The character ID " ++ toString character_id
          ++ " did not return any stories"))⟩
      else
        let total_steps := (total_stories.toNat + 99) / 100
        storiesLoop md5hex priv pub (clock 1) sserver total_steps 0 [] result [parms0]

/-- ApiRequest.getStoryData: GET the story endpoint; raise when the
reported count is below one, otherwise return the first result with the
envelope-level attributionHTML written onto it. -/
def getStoryData (md5hex : String → String) (priv pub ts : String)
    (stserver : List (String × String) → TransportResult StoryEnvelope)
    (story_id : Int) : Except ApiError RawStory :=
  match apiRequest md5hex priv pub ts stserver [] with
  | .error e => .error e
  | .ok result =>
      if result.data.count < 1 then
        .error (.notFound ("The story ID " ++ toString story_id ++ " does not exist"))
      else
        match result.data.results with
        | [] => .error .indexError
        | story_data :: _ => .ok { story_data with attributionHTML := some result.attributionHTML }

/-- Pages 1 and onward of the spec's corrected pagination: fetch page `it`
with offset it*100, accumulate its ids, continue until all pages are
consumed. -/
def specStoriesLoop (md5hex : String → String) (priv pub : String)
    (clock : Nat → String)
    (sserver : List (String × String) → TransportResult StoriesEnvelope) :
    Nat → Nat → List Int → List (List (String × String)) → StoriesRun
  | 0, _it, ids, reqs => ⟨reqs, .ok (some ids)⟩
  | remaining + 1, it, ids, reqs =>
      let parms := [("limit", "100"), ("offset", toString (it * 100))]
      match apiRequest md5hex priv pub (clock it) sserver parms with
      | .error e => ⟨reqs ++ [parms], .error e⟩
      | .ok result =>
          specStoriesLoop md5hex priv pub clock sserver remaining (it + 1)
            (ids ++ result.data.results.map (fun sit => sit.id)) (reqs ++ [parms])

/-- Modelled from the spec: the intended, non-truncating variant of
listStoryIdsForCharacter — the source's getCharacterStories with the
errant in-loop return removed, so the loop continues until all
ceil(total/100) pages are consumed, fetching page `it` with offset
it*100 (offset 0 implicit on the first request) and concatenating the
ids in page order. -/
def listStoryIdsForCharacterSpec (md5hex : String → String) (priv pub : String)
    (clock : Nat → String)
    (sserver : List (String × String) → TransportResult StoriesEnvelope)
    (character_id : Int) : StoriesRun :=
  let parms0 := [("limit", "100")]
  match apiRequest md5hex priv pub (clock 0) sserver parms0 with
  | .error e => ⟨[parms0], .error e⟩
  | .ok result =>
      let total_stories := result.data.total
      if total_stories < 1 then
        ⟨[parms0], .error (.notFound ("The character ID " ++ toString character_id
          ++ " did not return any stories"))⟩
      else
        let total_steps := (total_stories.toNat + 99) / 100
        specStoriesLoop md5hex priv pub clock sserver (total_steps - 1) 1
          (result.data.results.map (fun sit => sit.id)) [parms0]

/-- Python string slice `s[:-2]`: all characters but the last two. -/
def pySliceDropTwo (s : String) : String :=
  ⟨s.data.take (s.data.length - 2)⟩

/-- Story record produced by Main.parseStoryData for the HTML template. -/
structure ParsedStory where
  title : String
  description : String
  attributionHTML : Option String
  authors : String
  series : String
  events : String
deriving DecidableEq

/-- Main.parseStoryData from main.py: copy title, description and
attributionHTML, and render the creators, series and events lists as
comma-separated strings, each built by appending "..., " chunks and then
slicing off the final two characters. -/
def parseStoryData (story_data : RawStory) : ParsedStory :=
  { title := story_data.title
    description := story_data.description
    attributionHTML := story_data.attributionHTML
    authors := pySliceDropTwo (story_data.creators.foldl
      (fun acc it => acc ++ it.name ++ " (" ++ it.role ++ "), ") "")
    series := pySliceDropTwo (story_data.series.foldl
      (fun acc it => acc ++ it.name ++ ", ") "")
    events := pySliceDropTwo (story_data.events.foldl
      (fun acc it => acc ++ it.name ++ ", ") "") }

/-- The per-call fresh signing fields of a parameter dictionary. -/
def freshKey (k : String) : Bool :=
  k == "ts" || k == "hash"

/-- A parameter dictionary with its fresh signing fields (ts, hash)
removed. -/
def stripFresh (d : List (String × String)) : List (String × String) :=
  d.filter (fun p => !(freshKey p.1))

/-- The remote dataset is unchanged between calls and does not vary with
the fresh signing fields: two signed requests that agree outside ts and
hash receive the same transport result. -/
def IgnoresFresh {α : Type} (server : List (String × String) → TransportResult α) : Prop :=
  ∀ f1 f2, stripFresh f1 = stripFresh f2 → server f1 = server f2

/-- Entry-wise relation between two parameter dictionaries: same key, and
the same value except possibly at the fresh signing keys. -/
def EntryFresh (p q : String × String) : Prop :=
  p.1 = q.1 ∧ (freshKey p.1 = false → p.2 = q.2)

/-- Two parameter dictionaries that agree up to the fresh signing
fields. -/
def DictFresh (d1 d2 : List (String × String)) : Prop :=
  List.Forall₂ EntryFresh d1 d2

/-- Property every hexadecimal MD5 digest function has: the digest of any
string is 32 characters long (hashlib's hexdigest returns 32 lowercase
hex characters). -/
def IsHexDigestFn (f : String → String) : Prop :=
  ∀ s, (f s).length = 32

/-- A stand-in digest function used to instantiate the abstract md5hex
parameter on concrete runs: it has the 32-character output shape of an
MD5 hex digest. -/
def md5h0 : String → String :=
  fun _ => "0123456789abcdef0123456789abcdef"

/-- A concrete timestamp sequence for concrete runs. -/
def clock0 : Nat → String :=
  fun n => "1700000000." ++ toString n

/-- Concrete stories transport for the pagination scenario of the spec:
total 250 stories with ids 0..249, served in pages of 100 by offset,
always with HTTP status 200. -/
def server250 : List (String × String) → TransportResult StoriesEnvelope :=
  fun fields =>
    let off : Nat :=
      match dictGet fields "offset" with
      | some "100" => 100
      | some "200" => 200
      | _ => 0
    let pageLen := min 100 (250 - off)
    .response 200 ⟨⟨250, (List.range pageLen).map (fun n => ⟨Int.ofNat (off + n)⟩)⟩⟩

/-- Concrete stories transport that reports a total of zero stories. -/
def serverEmptyStories : List (String × String) → TransportResult StoriesEnvelope :=
  fun _ => .response 200 ⟨⟨0, []⟩⟩

/-- Concrete stories transport whose first page succeeds but whose
offset-bearing page requests answer with HTTP status 503. -/
def serverFlaky : List (String × String) → TransportResult StoriesEnvelope :=
  fun fields =>
    if dictHasKey fields "offset" then .response 503 ⟨⟨250, []⟩⟩
    else .response 200 ⟨⟨250, (List.range 100).map (fun n => ⟨Int.ofNat n⟩)⟩⟩

/-- Concrete characters transport answering with HTTP status 404. -/
def cserver404 : List (String × String) → TransportResult CharactersEnvelope :=
  fun _ => .response 404 ⟨⟨0, []⟩⟩

/-- Concrete characters transport with one result. -/
def cserverOK : List (String × String) → TransportResult CharactersEnvelope :=
  fun _ => .response 200 ⟨⟨1, [⟨1009368, "Iron Man"⟩]⟩⟩

/-- Concrete characters transport with a well-formed empty result set. -/
def cserverZero : List (String × String) → TransportResult CharactersEnvelope :=
  fun _ => .response 200 ⟨⟨0, []⟩⟩

/-- Concrete story transport raising a transport-level exception. -/
def stserverDown : List (String × String) → TransportResult StoryEnvelope :=
  fun _ => .failure "connection refused"

/-- Concrete story transport with one story whose nested object carries a
stale attributionHTML value, distinct from the envelope-level one. -/
def stserverOK : List (String × String) → TransportResult StoryEnvelope :=
  fun _ => .response 200 ⟨⟨1, [⟨"The Story", "A desc", [⟨"Stan Lee", "writer"⟩], [⟨"S1"⟩], [],
    some "stale"⟩]⟩, "Data provided by Marvel."⟩

/-- Concrete stories transport answering with HTTP status 404. -/
def sserver404 : List (String × String) → TransportResult StoriesEnvelope :=
  fun _ => .response 404 ⟨⟨0, []⟩⟩

/-- A second concrete timestamp sequence, distinct from clock0. -/
def clockB : Nat → String :=
  fun n => "1700009999." ++ toString n

/-! Lemmas about the dict model. -/

theorem find?_key_cons_skip {α : Type} (x : String × α) (l : List (String × α)) (k : String)
    (h : (x.1 == k) = false) :
    List.find? (fun q : String × α => q.1 == k) (x :: l)
      = List.find? (fun q : String × α => q.1 == k) l :=
  List.find?_cons_of_neg _ (by simp [h])

theorem find?_key_cons_hit {α : Type} (x : String × α) (l : List (String × α)) (k : String)
    (h : (x.1 == k) = true) :
    List.find? (fun q : String × α => q.1 == k) (x :: l) = some x :=
  List.find?_cons_of_pos _ h

theorem dictGet_cons_skip {α : Type} (x : String × α) (l : List (String × α)) (k : String)
    (h : (x.1 == k) = false) : dictGet (x :: l) k = dictGet l k := by
  rw [dictGet, dictGet, find?_key_cons_skip x l k h]

theorem dictGet_cons_hit {α : Type} (x : String × α) (l : List (String × α)) (k : String)
    (h : (x.1 == k) = true) : dictGet (x :: l) k = some x.2 := by
  rw [dictGet, find?_key_cons_hit x l k h]
  rfl

theorem map_overwrite_id {α : Type} (d : List (String × α)) (k : String) (v : α)
    (h : (d.any fun q => q.1 == k) = false) :
    d.map (fun p => if p.1 == k then (k, v) else p) = d := by
  induction d with
  | nil => rfl
  | cons p d ih =>
    simp only [List.any_cons, Bool.or_eq_false_iff] at h
    simp only [List.map_cons]
    rw [if_neg (by simp [h.1]), ih h.2]

theorem dictGet_isSome_eq {α : Type} (d : List (String × α)) (k : String) :
    (dictGet d k).isSome = dictHasKey d k := by
  induction d with
  | nil => rfl
  | cons p d ih =>
    cases hp : (p.1 == k) with
    | true =>
      rw [dictGet_cons_hit p d k hp]
      simp [dictHasKey, List.any_cons, hp]
    | false =>
      rw [dictGet_cons_skip p d k hp, ih]
      simp [dictHasKey, List.any_cons, hp]

theorem dictGet_dictInsert_self {α : Type} (d : List (String × α)) (k : String) (v : α) :
    dictGet (dictInsert d k v) k = some v := by
  induction d with
  | nil =>
    rw [dictInsert, if_neg (by simp)]
    simp only [List.nil_append]
    rw [dictGet_cons_hit (k, v) [] k (by simp)]
  | cons p d ih =>
    cases hp : (p.1 == k) with
    | true =>
      have hany : ((p :: d).any fun q => q.1 == k) = true := by simp [List.any_cons, hp]
      rw [dictInsert, if_pos hany]
      simp only [List.map_cons]
      rw [show (if p.1 == k then (k, v) else p) = (k, v) from if_pos hp]
      rw [dictGet_cons_hit (k, v) _ k (by simp)]
    | false =>
      cases hd : (d.any fun q => q.1 == k) with
      | true =>
        have hany : ((p :: d).any fun q => q.1 == k) = true := by simp [List.any_cons, hd]
        rw [dictInsert, if_pos hany]
        simp only [List.map_cons]
        rw [show (if p.1 == k then (k, v) else p) = p from if_neg (by simp [hp])]
        rw [dictGet_cons_skip p _ k hp]
        rw [dictInsert, if_pos hd] at ih
        exact ih
      | false =>
        have hany : ((p :: d).any fun q => q.1 == k) = false := by
          simp [List.any_cons, hp, hd]
        rw [dictInsert, if_neg (by simp [hany])]
        simp only [List.cons_append]
        rw [dictGet_cons_skip p _ k hp]
        rw [dictInsert, if_neg (by simp [hd])] at ih
        exact ih

theorem dictGet_dictInsert_ne {α : Type} (d : List (String × α)) (k k2 : String) (v : α)
    (h : k2 ≠ k) : dictGet (dictInsert d k v) k2 = dictGet d k2 := by
  have hk2 : ((k, v).1 == k2) = false := beq_eq_false_iff_ne.mpr (Ne.symm h)
  induction d with
  | nil =>
    rw [dictInsert, if_neg (by simp)]
    simp only [List.nil_append]
    rw [dictGet_cons_skip (k, v) [] k2 hk2]
  | cons p d ih =>
    cases hp : (p.1 == k) with
    | true =>
      have hpk : p.1 = k := by simpa using hp
      have hpk2 : (p.1 == k2) = false := by rw [hpk]; exact hk2
      have hany : ((p :: d).any fun q => q.1 == k) = true := by simp [List.any_cons, hp]
      rw [dictInsert, if_pos hany]
      simp only [List.map_cons]
      rw [show (if p.1 == k then (k, v) else p) = (k, v) from if_pos hp]
      rw [dictGet_cons_skip (k, v) _ k2 hk2, dictGet_cons_skip p d k2 hpk2]
      cases hd : (d.any fun q => q.1 == k) with
      | true =>
        rw [dictInsert, if_pos hd] at ih
        exact ih
      | false => rw [map_overwrite_id d k v hd]
    | false =>
      cases hd : (d.any fun q => q.1 == k) with
      | true =>
        have hany : ((p :: d).any fun q => q.1 == k) = true := by simp [List.any_cons, hd]
        rw [dictInsert, if_pos hany]
        simp only [List.map_cons]
        rw [show (if p.1 == k then (k, v) else p) = p from if_neg (by simp [hp])]
        rw [dictInsert, if_pos hd] at ih
        cases hph : (p.1 == k2) with
        | true => rw [dictGet_cons_hit p _ k2 hph, dictGet_cons_hit p d k2 hph]
        | false =>
          rw [dictGet_cons_skip p _ k2 hph, dictGet_cons_skip p d k2 hph]
          exact ih
      | false =>
        have hany : ((p :: d).any fun q => q.1 == k) = false := by
          simp [List.any_cons, hp, hd]
        rw [dictInsert, if_neg (by simp [hany])]
        simp only [List.cons_append]
        rw [dictInsert, if_neg (by simp [hd])] at ih
        cases hph : (p.1 == k2) with
        | true => rw [dictGet_cons_hit p _ k2 hph, dictGet_cons_hit p d k2 hph]
        | false =>
          rw [dictGet_cons_skip p _ k2 hph, dictGet_cons_skip p d k2 hph]
          exact ih

theorem dictHasKey_dictInsert_self {α : Type} (d : List (String × α)) (k : String) (v : α) :
    dictHasKey (dictInsert d k v) k = true := by
  rw [← dictGet_isSome_eq, dictGet_dictInsert_self]
  rfl

theorem dictHasKey_dictInsert_mono {α : Type} (d : List (String × α)) (k k2 : String) (v : α)
    (h : dictHasKey d k2 = true) : dictHasKey (dictInsert d k v) k2 = true := by
  by_cases hk : k2 = k
  · subst hk; exact dictHasKey_dictInsert_self d k2 v
  · rw [← dictGet_isSome_eq, dictGet_dictInsert_ne d k k2 v hk, dictGet_isSome_eq]
    exact h

theorem dictGet_dictUpdate_not_mem {α : Type} (parms : List (String × α))
    (d : List (String × α)) (k : String) (h : dictHasKey parms k = false) :
    dictGet (dictUpdate d parms) k = dictGet d k := by
  induction parms generalizing d with
  | nil => rfl
  | cons p rest ih =>
    simp only [dictHasKey, List.any_cons, Bool.or_eq_false_iff] at h
    simp only [dictUpdate, List.foldl_cons]
    rw [show List.foldl (fun r q => dictInsert r q.1 q.2) (dictInsert d p.1 p.2) rest
        = dictUpdate (dictInsert d p.1 p.2) rest from rfl]
    rw [ih (dictInsert d p.1 p.2) (by simpa [dictHasKey] using h.2)]
    exact dictGet_dictInsert_ne d p.1 k p.2 (Ne.symm (ne_of_beq_false h.1))

theorem dictHasKey_dictUpdate_left {α : Type} (parms : List (String × α))
    (d : List (String × α)) (k : String) (h : dictHasKey d k = true) :
    dictHasKey (dictUpdate d parms) k = true := by
  induction parms generalizing d with
  | nil => exact h
  | cons p rest ih =>
    simp only [dictUpdate, List.foldl_cons]
    exact ih (dictInsert d p.1 p.2) (dictHasKey_dictInsert_mono d p.1 k p.2 h)

theorem dictHasKey_dictUpdate_right {α : Type} (parms : List (String × α))
    (d : List (String × α)) (k : String) (h : dictHasKey parms k = true) :
    dictHasKey (dictUpdate d parms) k = true := by
  induction parms generalizing d with
  | nil => exact absurd h (by simp [dictHasKey])
  | cons p rest ih =>
    simp only [dictUpdate, List.foldl_cons]
    simp only [dictHasKey, List.any_cons, Bool.or_eq_true] at h
    rcases h with h | h
    · have hk : p.1 = k := by simpa using h
      have hh : dictHasKey (dictInsert d p.1 p.2) k = true := by
        rw [hk] at *
        exact dictHasKey_dictInsert_self d k p.2
      exact dictHasKey_dictUpdate_left rest (dictInsert d p.1 p.2) k hh
    · exact ih (dictInsert d p.1 p.2) h

/-- C2 (amended): for every caller-supplied parameter dictionary that does
not itself use the reserved keys hash or apikey, the Signer's output
contains the keys ts, hash and apikey plus every key of the input
dictionary, hash is the MD5 hex digest of timestamp + privateKey +
publicKey, and apikey is the public key.  (As the claim is stated, for an
input dictionary containing a hash or apikey key, the caller's value
overwrites the computed one — see the counterexample.) -/
theorem addAuthParms_auth_fields (md5hex : String → String) (ts priv pub : String)
    (request_parms : List (String × String))
    (hh : dictHasKey request_parms "hash" = false)
    (ha : dictHasKey request_parms "apikey" = false) :
    dictHasKey (addAuthParms md5hex ts priv pub request_parms) "ts" = true
    ∧ dictHasKey (addAuthParms md5hex ts priv pub request_parms) "hash" = true
    ∧ dictHasKey (addAuthParms md5hex ts priv pub request_parms) "apikey" = true
    ∧ (∀ k, dictHasKey request_parms k = true →
        dictHasKey (addAuthParms md5hex ts priv pub request_parms) k = true)
    ∧ dictGet (addAuthParms md5hex ts priv pub request_parms) "hash"
        = some (md5hex (ts ++ priv ++ pub))
    ∧ dictGet (addAuthParms md5hex ts priv pub request_parms) "apikey" = some pub := by
  simp only [addAuthParms]
  refine ⟨?_, ?_, ?_, ?_, ?_, ?_⟩
  · exact dictHasKey_dictUpdate_left request_parms _ "ts" (by rfl)
  · exact dictHasKey_dictUpdate_left request_parms _ "hash" (by rfl)
  · exact dictHasKey_dictUpdate_left request_parms _ "apikey" (by rfl)
  · exact fun k hk => dictHasKey_dictUpdate_right request_parms _ k hk
  · rw [dictGet_dictUpdate_not_mem request_parms _ "hash" hh]
    rw [dictGet_cons_skip ("ts", ts) _ "hash" (by rfl)]
    rw [dictGet_cons_hit ("hash", md5hex (ts ++ priv ++ pub)) _ "hash" (by rfl)]
  · rw [dictGet_dictUpdate_not_mem request_parms _ "apikey" ha]
    rw [dictGet_cons_skip ("ts", ts) _ "apikey" (by rfl)]
    rw [dictGet_cons_skip ("hash", md5hex (ts ++ priv ++ pub)) _ "apikey" (by rfl)]
    rw [dictGet_cons_hit ("apikey", pub) _ "apikey" (by rfl)]

/-- C2 counterexample: the claim as stated — quantifying over every
caller-supplied parameter dictionary — is false: with the input
dictionary [("hash", "boom")] the caller's value overwrites the computed
digest, so the output's hash field is "boom", which no 32-character hex
digest function can produce as the digest of ts + privateKey +
publicKey. -/
theorem addAuthParms_counterexample_C2 :
    ¬ (∀ md5hex : String → String, IsHexDigestFn md5hex →
        ∀ ts priv pub : String, ∀ request_parms : List (String × String),
          dictHasKey (addAuthParms md5hex ts priv pub request_parms) "ts" = true
          ∧ dictHasKey (addAuthParms md5hex ts priv pub request_parms) "hash" = true
          ∧ dictHasKey (addAuthParms md5hex ts priv pub request_parms) "apikey" = true
          ∧ (∀ k, dictHasKey request_parms k = true →
              dictHasKey (addAuthParms md5hex ts priv pub request_parms) k = true)
          ∧ dictGet (addAuthParms md5hex ts priv pub request_parms) "hash"
              = some (md5hex (ts ++ priv ++ pub))
          ∧ dictGet (addAuthParms md5hex ts priv pub request_parms) "apikey" = some pub) := by
  intro hclaim
  have hdigest : IsHexDigestFn md5h0 := fun _ => rfl
  have h := (hclaim md5h0 hdigest "1.0" "priv" "pub" [("hash", "boom")]).2.2.2.2.1
  exact absurd h (by decide)

/-- C2 witness: a concrete run of the amended theorem on the parameters
the program actually sends for a character lookup. -/
theorem addAuthParms_auth_fields_witness :
    dictGet (addAuthParms md5h0 "1.0" "priv" "pub" [("name", "Iron Man")]) "hash"
      = some (md5h0 ("1.0" ++ "priv" ++ "pub"))
    ∧ dictGet (addAuthParms md5h0 "1.0" "priv" "pub" [("name", "Iron Man")]) "apikey"
      = some "pub"
    ∧ dictHasKey (addAuthParms md5h0 "1.0" "priv" "pub" [("name", "Iron Man")]) "name"
      = true := by
  have h := addAuthParms_auth_fields md5h0 "1.0" "priv" "pub" [("name", "Iron Man")]
    (by decide) (by decide)
  exact ⟨h.2.2.2.2.1, h.2.2.2.2.2, h.2.2.2.1 "name" (by decide)⟩

/-- C10: Configuration.getParm returns the value stored under a parameter
name when the name is present in the loaded configuration, and returns
none — it does not fail — when the name is absent. -/
theorem getParm_stored_or_none_C10 (α : Type) (parms : List (String × α)) (parm : String) :
    (∀ v, dictGet parms parm = some v → getParm parms parm = some v)
    ∧ (dictHasKey parms parm = false → getParm parms parm = none) := by
  constructor
  · intro v hv
    have hk : dictHasKey parms parm = true := by
      rw [← dictGet_isSome_eq, hv]
      rfl
    rw [getParm, if_pos hk]
    exact hv
  · intro hk
    rw [getParm, if_neg (by simp [hk])]

/-- C10 witness: a concrete configuration with the two keys the program
stores; a present name yields its value and an absent one yields none. -/
theorem getParm_stored_or_none_C10_witness :
    getParm [("public_key", "pk"), ("private_key", "sk")] "public_key" = some "pk"
    ∧ getParm [("public_key", "pk"), ("private_key", "sk")] "api_base" = none := by
  constructor
  · exact (getParm_stored_or_none_C10 String
      [("public_key", "pk"), ("private_key", "sk")] "public_key").1 "pk" (by decide)
  · exact (getParm_stored_or_none_C10 String
      [("public_key", "pk"), ("private_key", "sk")] "api_base").2 (by decide)

set_option maxRecDepth 8192 in
/-- C1: the claim describes the intended pagination (confirmed here of the
spec-modelled corrected loop: on a 250-story dataset, 3 page fetches at
offsets 0, 100, 200 and all 250 ids in page order), but the code's
getCharacterStories has its `return story_ids` indented inside the for
loop, so on the same dataset it performs only 2 fetches (offsets 0 and
100) and returns only the first page's 100 ids. -/
theorem getCharacterStories_truncation_code_bug_C1 :
    (getCharacterStories md5h0 "priv" "pub" clock0 server250 7
      = ⟨[[("limit", "100")], [("limit", "100"), ("offset", "100")]],
         .ok (some ((List.range 100).map (fun n => Int.ofNat n)))⟩)
    ∧ (listStoryIdsForCharacterSpec md5h0 "priv" "pub" clock0 server250 7
      = ⟨[[("limit", "100")], [("limit", "100"), ("offset", "100")],
          [("limit", "100"), ("offset", "200")]],
         .ok (some ((List.range 250).map (fun n => Int.ofNat n)))⟩) := by
  constructor
  · rfl
  · decide

/-- C7: for every character id, getCharacterStories fails with a
NotFoundError when the stories endpoint reports a total of fewer than 1
stories. -/
theorem getCharacterStories_empty_notFound_C7
    (md5hex : String → String) (priv pub : String) (clock : Nat → String)
    (sserver : List (String × String) → TransportResult StoriesEnvelope)
    (character_id : Int) (env : StoriesEnvelope)
    (hresp : sserver (addAuthParms md5hex (clock 0) priv pub [("limit", "100")])
      = .response 200 env)
    (htotal : env.data.total < 1) :
    (getCharacterStories md5hex priv pub clock sserver character_id).outcome
      = .error (.notFound ("The character ID " ++ toString character_id
          ++ " did not return any stories")) := by
  simp [getCharacterStories, apiRequest, hresp, htotal]

/-- C7 witness: a concrete server reporting zero stories. -/
theorem getCharacterStories_empty_notFound_C7_witness :
    (getCharacterStories md5h0 "priv" "pub" clock0 serverEmptyStories 42).outcome
      = .error (.notFound ("The character ID " ++ toString (42 : Int)
          ++ " did not return any stories")) :=
  getCharacterStories_empty_notFound_C7 md5h0 "priv" "pub" clock0 serverEmptyStories 42
    ⟨⟨0, []⟩⟩ rfl (by decide)

/-- C6: if any page request issued inside the pagination loop of
getCharacterStories does not succeed (its response status is not 200, in
particular when the transport fails and returns no status at all), then
no list of story ids — in particular no partial one — is returned to the
caller.  Due to the early return, the only request the loop can issue is
the offset-100 one. -/
theorem getCharacterStories_allOrNothing_C6
    (md5hex : String → String) (priv pub : String) (clock : Nat → String)
    (sserver : List (String × String) → TransportResult StoriesEnvelope)
    (character_id : Int)
    (hfail : ∀ status body, sserver (addAuthParms md5hex (clock 1) priv pub
        [("limit", "100"), ("offset", "100")]) = .response status body → status ≠ 200) :
    ∀ ids, (getCharacterStories md5hex priv pub clock sserver character_id).outcome
      ≠ .ok ids := by
  intro ids
  unfold getCharacterStories apiRequest
  cases h0 : sserver (addAuthParms md5hex (clock 0) priv pub [("limit", "100")]) with
  | failure cause => simp [h0]
  | response status0 body0 =>
    by_cases hs0 : status0 = 200
    · subst hs0
      by_cases htot : body0.data.total < 1
      · simp [h0, htot]
      · have hsteps : 0 < (body0.data.total.toNat + 99) / 100 := by
          simp only [not_lt] at htot
          have h1 : 1 ≤ body0.data.total.toNat := by omega
          omega
        unfold storiesLoop
        rw [show (toString ((0 + 1) * 100 : Nat)) = "100" from rfl]
        unfold apiRequest
        cases h1 : sserver (addAuthParms md5hex (clock 1) priv pub
            [("limit", "100"), ("offset", "100")]) with
        | failure cause => simp [h0, htot, hsteps, h1]
        | response status1 body1 =>
          have hne : status1 ≠ 200 := hfail status1 body1 h1
          simp [h0, htot, hsteps, h1, hne]
    · simp [h0, hs0]

/-- C6 witness: a concrete server whose offset-bearing page request fails
with HTTP status 503; no list of ids (in particular not the first page)
is returned. -/
theorem getCharacterStories_allOrNothing_C6_witness :
    (getCharacterStories md5h0 "priv" "pub" clock0 serverFlaky 7).outcome
      ≠ .ok (some ((List.range 100).map (fun n => Int.ofNat n))) := by
  apply getCharacterStories_allOrNothing_C6 md5h0 "priv" "pub" clock0 serverFlaky 7
  intro status body h
  have hsrv : serverFlaky (addAuthParms md5h0 (clock0 1) "priv" "pub"
      [("limit", "100"), ("offset", "100")]) = .response 503 ⟨⟨250, []⟩⟩ := rfl
  rw [hsrv] at h
  injection h with h1 h2
  omega

/-- C5: for each of the four fetch operations and each request they make
— including the pagination loop's in-loop offset-100 request, the only
request besides each operation's first one that the code can issue — a
response with a non-2xx HTTP status makes the operation fail with a
CommunicationError whose message carries the status code, and a
transport failure makes it fail with a CommunicationError carrying the
cause; the error is returned to the caller unchanged, and (shown for the
paginated operation through its request trace) no further request is
attempted. -/
theorem fetchOps_communication_error_C5
    (md5hex : String → String) (priv pub ts : String) (clock : Nat → String)
    (cserver userver : List (String × String) → TransportResult CharactersEnvelope)
    (stserver : List (String × String) → TransportResult StoryEnvelope)
    (sserver : List (String × String) → TransportResult StoriesEnvelope)
    (character_name : String) (character_id story_id : Int) :
    (∀ status body, cserver (addAuthParms md5hex ts priv pub [("name", character_name)])
        = .response status body → status < 200 ∨ 299 < status →
        getCharacterId md5hex priv pub ts cserver character_name
          = .error (.communication (httpStatusMsg status)))
    ∧ (∀ cause, cserver (addAuthParms md5hex ts priv pub [("name", character_name)])
        = .failure cause →
        getCharacterId md5hex priv pub ts cserver character_name
          = .error (.communication cause))
    ∧ (∀ status body, userver (addAuthParms md5hex ts priv pub [])
        = .response status body → status < 200 ∨ 299 < status →
        getCharacterInfoFromUrl md5hex priv pub ts userver
          = .error (.communication (httpStatusMsg status)))
    ∧ (∀ cause, userver (addAuthParms md5hex ts priv pub []) = .failure cause →
        getCharacterInfoFromUrl md5hex priv pub ts userver
          = .error (.communication cause))
    ∧ (∀ status body, stserver (addAuthParms md5hex ts priv pub [])
        = .response status body → status < 200 ∨ 299 < status →
        getStoryData md5hex priv pub ts stserver story_id
          = .error (.communication (httpStatusMsg status)))
    ∧ (∀ cause, stserver (addAuthParms md5hex ts priv pub []) = .failure cause →
        getStoryData md5hex priv pub ts stserver story_id
          = .error (.communication cause))
    ∧ (∀ status body, sserver (addAuthParms md5hex (clock 0) priv pub [("limit", "100")])
        = .response status body → status < 200 ∨ 299 < status →
        getCharacterStories md5hex priv pub clock sserver character_id
          = ⟨[[("limit", "100")]], .error (.communication (httpStatusMsg status))⟩)
    ∧ (∀ cause, sserver (addAuthParms md5hex (clock 0) priv pub [("limit", "100")])
        = .failure cause →
        getCharacterStories md5hex priv pub clock sserver character_id
          = ⟨[[("limit", "100")]], .error (.communication cause)⟩)
    ∧ (∀ env status body, sserver (addAuthParms md5hex (clock 0) priv pub [("limit", "100")])
        = .response 200 env → 1 ≤ env.data.total →
        sserver (addAuthParms md5hex (clock 1) priv pub
          [("limit", "100"), ("offset", "100")]) = .response status body →
        status < 200 ∨ 299 < status →
        getCharacterStories md5hex priv pub clock sserver character_id
          = ⟨[[("limit", "100")], [("limit", "100"), ("offset", "100")]],
             .error (.communication (httpStatusMsg status))⟩)
    ∧ (∀ env cause, sserver (addAuthParms md5hex (clock 0) priv pub [("limit", "100")])
        = .response 200 env → 1 ≤ env.data.total →
        sserver (addAuthParms md5hex (clock 1) priv pub
          [("limit", "100"), ("offset", "100")]) = .failure cause →
        getCharacterStories md5hex priv pub clock sserver character_id
          = ⟨[[("limit", "100")], [("limit", "100"), ("offset", "100")]],
             .error (.communication cause)⟩) := by
  refine ⟨?_, ?_, ?_, ?_, ?_, ?_, ?_, ?_, ?_, ?_⟩
  · intro status body h hnon
    have hne : status ≠ 200 := by omega
    simp [getCharacterId, apiRequest, h, hne]
  · intro cause h
    simp [getCharacterId, apiRequest, h]
  · intro status body h hnon
    have hne : status ≠ 200 := by omega
    simp [getCharacterInfoFromUrl, apiRequest, h, hne]
  · intro cause h
    simp [getCharacterInfoFromUrl, apiRequest, h]
  · intro status body h hnon
    have hne : status ≠ 200 := by omega
    simp [getStoryData, apiRequest, h, hne]
  · intro cause h
    simp [getStoryData, apiRequest, h]
  · intro status body h hnon
    have hne : status ≠ 200 := by omega
    simp [getCharacterStories, apiRequest, h, hne]
  · intro cause h
    simp [getCharacterStories, apiRequest, h]
  · intro env status body h0 htot1 h1 hnon
    have hne : status ≠ 200 := by omega
    have hnl : ¬ env.data.total < 1 := by omega
    have hsteps : 0 < (env.data.total.toNat + 99) / 100 := by
      have h2 : 1 ≤ env.data.total.toNat := by omega
      omega
    unfold getCharacterStories apiRequest
    unfold storiesLoop
    rw [show (toString ((0 + 1) * 100 : Nat)) = "100" from rfl]
    unfold apiRequest
    simp [h0, hnl, hsteps, h1, hne]
  · intro env cause h0 htot1 h1
    have hnl : ¬ env.data.total < 1 := by omega
    have hsteps : 0 < (env.data.total.toNat + 99) / 100 := by
      have h2 : 1 ≤ env.data.total.toNat := by omega
      omega
    unfold getCharacterStories apiRequest
    unfold storiesLoop
    rw [show (toString ((0 + 1) * 100 : Nat)) = "100" from rfl]
    unfold apiRequest
    simp [h0, hnl, hsteps, h1]

/-- C5 witness: concrete failing transports for the operations — a 404
characters endpoint, a story endpoint whose connection drops, a 404
stories endpoint (whose run shows the single attempted request), and a
stories endpoint whose first page succeeds but whose in-loop offset-100
request answers 503. -/
theorem fetchOps_communication_error_C5_witness :
    getCharacterId md5h0 "priv" "pub" "1.0" cserver404 "Iron Man"
      = .error (.communication (httpStatusMsg 404))
    ∧ getStoryData md5h0 "priv" "pub" "1.0" stserverDown 108992
      = .error (.communication "connection refused")
    ∧ getCharacterStories md5h0 "priv" "pub" clock0 sserver404 7
      = ⟨[[("limit", "100")]], .error (.communication (httpStatusMsg 404))⟩
    ∧ getCharacterStories md5h0 "priv" "pub" clock0 serverFlaky 7
      = ⟨[[("limit", "100")], [("limit", "100"), ("offset", "100")]],
         .error (.communication (httpStatusMsg 503))⟩ := by
  have h := fetchOps_communication_error_C5 md5h0 "priv" "pub" "1.0" clock0
    cserver404 cserver404 stserverDown sserver404 "Iron Man" 7 108992
  have hf := fetchOps_communication_error_C5 md5h0 "priv" "pub" "1.0" clock0
    cserver404 cserver404 stserverDown serverFlaky "Iron Man" 7 108992
  exact ⟨h.1 404 ⟨⟨0, []⟩⟩ rfl (by omega),
    h.2.2.2.2.2.1 "connection refused" rfl,
    h.2.2.2.2.2.2.1 404 ⟨⟨0, []⟩⟩ rfl (by omega),
    hf.2.2.2.2.2.2.2.2.1 ⟨⟨250, (List.range 100).map (fun n => ⟨Int.ofNat n⟩)⟩⟩
      503 ⟨⟨250, []⟩⟩ rfl (by decide) rfl (by omega)⟩

/-- C3: for every story id, getStoryData fails with a NotFoundError when
the response's count is below 1, and otherwise returns the first element
of the response's results with the attributionHTML field taken from the
top-level envelope — regardless of any attributionHTML value the nested
result object itself carries. -/
theorem getStoryData_envelope_attribution_C3
    (md5hex : String → String) (priv pub ts : String)
    (stserver : List (String × String) → TransportResult StoryEnvelope)
    (story_id : Int) (env : StoryEnvelope)
    (hresp : stserver (addAuthParms md5hex ts priv pub []) = .response 200 env) :
    (env.data.count < 1 →
      getStoryData md5hex priv pub ts stserver story_id
        = .error (.notFound ("The story ID " ++ toString story_id ++ " does not exist")))
    ∧ (∀ s rest, env.data.results = s :: rest → 1 ≤ env.data.count →
      getStoryData md5hex priv pub ts stserver story_id
        = .ok { s with attributionHTML := some env.attributionHTML }) := by
  constructor
  · intro hcount
    simp [getStoryData, apiRequest, hresp, hcount]
  · intro s rest hres hcount
    have hnl : ¬ env.data.count < 1 := by omega
    simp [getStoryData, apiRequest, hresp, hnl, hres]

/-- C3 witness: a concrete story whose nested object carries the stale
attribution value "stale"; the returned story carries the envelope's
value instead. -/
theorem getStoryData_envelope_attribution_C3_witness :
    getStoryData md5h0 "priv" "pub" "1.0" stserverOK 108992
      = .ok ⟨"The Story", "A desc", [⟨"Stan Lee", "writer"⟩], [⟨"S1"⟩], [],
          some "Data provided by Marvel."⟩ := by
  have h := getStoryData_envelope_attribution_C3 md5h0 "priv" "pub" "1.0" stserverOK 108992
    ⟨⟨1, [⟨"The Story", "A desc", [⟨"Stan Lee", "writer"⟩], [⟨"S1"⟩], [], some "stale"⟩]⟩,
     "Data provided by Marvel."⟩ rfl
  exact h.2 _ [] rfl (by decide)

/-- C4: for every character name, given a well-formed 200 response whose
count matches its result list, getCharacterId fails with a NotFoundError
exactly when the reported count is zero, and when at least one result is
returned it returns the id of the first result. -/
theorem getCharacterId_first_or_notFound_C4
    (md5hex : String → String) (priv pub ts : String)
    (cserver : List (String × String) → TransportResult CharactersEnvelope)
    (character_name : String) (env : CharactersEnvelope)
    (hresp : cserver (addAuthParms md5hex ts priv pub [("name", character_name)])
      = .response 200 env)
    (hwf : env.data.count = (env.data.results.length : Int)) :
    (getCharacterId md5hex priv pub ts cserver character_name
        = .error (.notFound ("No character with the name " ++ character_name ++ " found"))
      ↔ env.data.count = 0)
    ∧ (∀ r rest, env.data.results = r :: rest →
        getCharacterId md5hex priv pub ts cserver character_name = .ok r.id) := by
  constructor
  · constructor
    · intro herr
      by_contra hne
      have hnl : ¬ env.data.count < 1 := by omega
      cases hres : env.data.results with
      | nil =>
        rw [hres] at hwf
        simp at hwf
        omega
      | cons r rest =>
        simp [getCharacterId, apiRequest, hresp, hnl, hres] at herr
    · intro h0
      have hlt : env.data.count < 1 := by omega
      simp [getCharacterId, apiRequest, hresp, hlt]
  · intro r rest hres
    have hlen : env.data.results.length = rest.length + 1 := by rw [hres]; simp
    have hnl : ¬ env.data.count < 1 := by omega
    simp [getCharacterId, apiRequest, hresp, hnl, hres]

/-- C4 witness: a well-formed empty result set yields the NotFoundError,
and a one-result response yields the first result's id. -/
theorem getCharacterId_first_or_notFound_C4_witness :
    (getCharacterId md5h0 "priv" "pub" "1.0" cserverZero "Nobody"
        = .error (.notFound ("No character with the name " ++ "Nobody" ++ " found"))
      ↔ (0 : Int) = 0)
    ∧ getCharacterId md5h0 "priv" "pub" "1.0" cserverOK "Iron Man" = .ok 1009368 := by
  constructor
  · exact (getCharacterId_first_or_notFound_C4 md5h0 "priv" "pub" "1.0" cserverZero
      "Nobody" ⟨⟨0, []⟩⟩ rfl (by decide)).1
  · exact (getCharacterId_first_or_notFound_C4 md5h0 "priv" "pub" "1.0" cserverOK
      "Iron Man" ⟨⟨1, [⟨1009368, "Iron Man"⟩]⟩⟩ rfl (by decide)).2 ⟨1009368, "Iron Man"⟩ [] rfl

/-- Python slice s[:-2] removes exactly a final ", " separator. -/
theorem pySliceDropTwo_append_sep (X : String) : pySliceDropTwo (X ++ ", ") = X := by
  unfold pySliceDropTwo
  have h : (X ++ ", ").data = X.data ++ [',', ' '] := by rw [String.data_append]
  rw [h]
  rw [List.length_append]
  norm_num

/-- C8: parsing a story with exactly 2 creators, 1 series entry and 0
events yields an authors string joining the two creators as
"Name (Role), Name (Role)" with no trailing separator, and an events
field equal to the empty string. -/
theorem parseStoryData_two_creators_C8
    (story_data : RawStory) (c1 c2 : CreatorItem) (s1 : NamedItem)
    (hc : story_data.creators = [c1, c2])
    (hs : story_data.series = [s1])
    (he : story_data.events = []) :
    (parseStoryData story_data).authors
      = c1.name ++ " (" ++ c1.role ++ "), " ++ c2.name ++ " (" ++ c2.role ++ ")"
    ∧ (parseStoryData story_data).events = "" := by
  constructor
  · simp only [parseStoryData, hc, List.foldl_cons, List.foldl_nil]
    have key : ("" ++ c1.name ++ " (" ++ c1.role ++ "), " ++ c2.name ++ " (" ++ c2.role ++ "), ")
        = (c1.name ++ " (" ++ c1.role ++ "), " ++ c2.name ++ " (" ++ c2.role ++ ")") ++ ", " := by
      apply String.ext
      simp only [String.data_append,
        show ("), " : String).data = (")" : String).data ++ (", " : String).data from rfl,
        show ("" : String).data = [] from rfl]
      simp [List.append_assoc]
    rw [key, pySliceDropTwo_append_sep]
  · simp only [parseStoryData, he, List.foldl_nil]
    rfl

/-- C8 witness: a concrete story with two creators, one series entry and
no events. -/
theorem parseStoryData_two_creators_C8_witness :
    (parseStoryData ⟨"T", "D", [⟨"Stan Lee", "writer"⟩, ⟨"Jack Kirby", "penciller"⟩],
        [⟨"S1"⟩], [], some "attr"⟩).authors
      = "Stan Lee" ++ " (" ++ "writer" ++ "), " ++ "Jack Kirby" ++ " (" ++ "penciller" ++ ")"
    ∧ (parseStoryData ⟨"T", "D", [⟨"Stan Lee", "writer"⟩, ⟨"Jack Kirby", "penciller"⟩],
        [⟨"S1"⟩], [], some "attr"⟩).events = "" :=
  parseStoryData_two_creators_C8 _ ⟨"Stan Lee", "writer"⟩ ⟨"Jack Kirby", "penciller"⟩
    ⟨"S1"⟩ rfl rfl rfl

/-! Lemmas for the fresh-signing-field independence property. -/

theorem DictFresh.any_key_eq {d1 d2 : List (String × String)} (h : DictFresh d1 d2)
    (k : String) : (d1.any fun p => p.1 == k) = (d2.any fun p => p.1 == k) := by
  induction h with
  | nil => rfl
  | cons hpq hrest ih =>
    rename_i p q l1 l2
    simp only [List.any_cons, hpq.1, ih]

theorem DictFresh.map_overwrite {d1 d2 : List (String × String)} (h : DictFresh d1 d2)
    (k : String) (v : String) :
    DictFresh (d1.map (fun p => if p.1 == k then (k, v) else p))
      (d2.map (fun p => if p.1 == k then (k, v) else p)) := by
  induction h with
  | nil => exact List.Forall₂.nil
  | cons hpq hrest ih =>
    rename_i p q l1 l2
    obtain ⟨hkey, hval⟩ := hpq
    refine List.Forall₂.cons ?_ ih
    dsimp only
    by_cases hpk : (p.1 == k) = true
    · have hqk : (q.1 == k) = true := by rw [← hkey]; exact hpk
      rw [if_pos hpk, if_pos hqk]
      exact ⟨rfl, fun _ => rfl⟩
    · have hqk : ¬ (q.1 == k) = true := by rw [← hkey]; exact hpk
      rw [if_neg hpk, if_neg hqk]
      exact ⟨hkey, hval⟩

theorem DictFresh.append_single {d1 d2 : List (String × String)} (h : DictFresh d1 d2)
    (x : String × String) : DictFresh (d1 ++ [x]) (d2 ++ [x]) :=
  List.rel_append h (List.Forall₂.cons ⟨rfl, fun _ => rfl⟩ List.Forall₂.nil)

theorem DictFresh.dictInsert_congr {d1 d2 : List (String × String)} (h : DictFresh d1 d2)
    (k : String) (v : String) : DictFresh (dictInsert d1 k v) (dictInsert d2 k v) := by
  unfold dictInsert
  rw [← h.any_key_eq k]
  by_cases hc : (d1.any fun p => p.1 == k) = true
  · rw [if_pos hc, if_pos hc]
    exact h.map_overwrite k v
  · rw [if_neg hc, if_neg hc]
    exact h.append_single (k, v)

theorem DictFresh.dictUpdate_congr {d1 d2 : List (String × String)} (h : DictFresh d1 d2)
    (parms : List (String × String)) :
    DictFresh (dictUpdate d1 parms) (dictUpdate d2 parms) := by
  induction parms generalizing d1 d2 with
  | nil => exact h
  | cons p rest ih =>
    simp only [dictUpdate, List.foldl_cons] at ih ⊢
    exact ih (h.dictInsert_congr p.1 p.2)

theorem addAuthParms_dictFresh (md5hex : String → String) (t1 t2 priv pub : String)
    (parms : List (String × String)) :
    DictFresh (addAuthParms md5hex t1 priv pub parms) (addAuthParms md5hex t2 priv pub parms) := by
  simp only [addAuthParms]
  apply DictFresh.dictUpdate_congr
  refine List.Forall₂.cons ⟨rfl, ?_⟩ (List.Forall₂.cons ⟨rfl, ?_⟩
    (List.Forall₂.cons ⟨rfl, fun _ => rfl⟩ List.Forall₂.nil))
  · intro hfalse
    simp [freshKey] at hfalse
  · intro hfalse
    simp [freshKey] at hfalse

theorem DictFresh.stripFresh_eq {d1 d2 : List (String × String)} (h : DictFresh d1 d2) :
    stripFresh d1 = stripFresh d2 := by
  induction h with
  | nil => rfl
  | cons hpq hrest ih =>
    rename_i p q l1 l2
    obtain ⟨hkey, hval⟩ := hpq
    simp only [stripFresh] at ih ⊢
    rw [List.filter_cons, List.filter_cons, ← hkey]
    cases hf : freshKey p.1 with
    | true => simpa using ih
    | false =>
      have hpq2 : p.2 = q.2 := hval hf
      have hpq3 : p = q := by
        cases p
        cases q
        simp only at hkey hpq2
        rw [hkey, hpq2]
      rw [hpq3]
      simp [ih]

theorem apiRequest_fresh_irrelevant {α : Type} (md5hex : String → String) (priv pub : String)
    (server : List (String × String) → TransportResult α) (hs : IgnoresFresh server)
    (t1 t2 : String) (parms : List (String × String)) :
    apiRequest md5hex priv pub t1 server parms = apiRequest md5hex priv pub t2 server parms := by
  simp only [apiRequest]
  rw [hs (addAuthParms md5hex t1 priv pub parms) (addAuthParms md5hex t2 priv pub parms)
    (addAuthParms_dictFresh md5hex t1 t2 priv pub parms).stripFresh_eq]

theorem storiesLoop_fresh_irrelevant (md5hex : String → String) (priv pub tA tB : String)
    (sserver : List (String × String) → TransportResult StoriesEnvelope)
    (hs : IgnoresFresh sserver) (steps it : Nat) (ids : List Int) (result : StoriesEnvelope)
    (reqs : List (List (String × String))) :
    storiesLoop md5hex priv pub tA sserver steps it ids result reqs
      = storiesLoop md5hex priv pub tB sserver steps it ids result reqs := by
  simp only [storiesLoop]
  rw [apiRequest_fresh_irrelevant md5hex priv pub sserver hs tA tB
    [("limit", "100"), ("offset", toString ((it + 1) * 100))]]

/-- C9: repeating any of the four fetch operations with the same inputs
against the same remote dataset — a transport whose answers do not depend
on the fresh ts and hash signing fields — yields structurally identical
results, even though each run signs its requests with different
timestamps and digests. -/
theorem fetchOps_fresh_independent_C9
    (md5hex : String → String) (priv pub : String)
    (cserver userver : List (String × String) → TransportResult CharactersEnvelope)
    (stserver : List (String × String) → TransportResult StoryEnvelope)
    (sserver : List (String × String) → TransportResult StoriesEnvelope)
    (t1 t2 : String) (clock1 clock2 : Nat → String)
    (character_name : String) (character_id story_id : Int)
    (hc : IgnoresFresh cserver) (hu : IgnoresFresh userver)
    (hst : IgnoresFresh stserver) (hss : IgnoresFresh sserver) :
    getCharacterId md5hex priv pub t1 cserver character_name
      = getCharacterId md5hex priv pub t2 cserver character_name
    ∧ getCharacterInfoFromUrl md5hex priv pub t1 userver
      = getCharacterInfoFromUrl md5hex priv pub t2 userver
    ∧ getStoryData md5hex priv pub t1 stserver story_id
      = getStoryData md5hex priv pub t2 stserver story_id
    ∧ getCharacterStories md5hex priv pub clock1 sserver character_id
      = getCharacterStories md5hex priv pub clock2 sserver character_id := by
  refine ⟨?_, ?_, ?_, ?_⟩
  · unfold getCharacterId
    rw [apiRequest_fresh_irrelevant md5hex priv pub cserver hc t1 t2 [("name", character_name)]]
  · unfold getCharacterInfoFromUrl
    rw [apiRequest_fresh_irrelevant md5hex priv pub userver hu t1 t2 []]
  · unfold getStoryData
    rw [apiRequest_fresh_irrelevant md5hex priv pub stserver hst t1 t2 []]
  · simp only [getCharacterStories]
    rw [apiRequest_fresh_irrelevant md5hex priv pub sserver hss (clock1 0) (clock2 0)
      [("limit", "100")]]
    simp only [storiesLoop_fresh_irrelevant md5hex priv pub (clock1 1) (clock2 1) sserver hss]

/-- C9 witness: two concrete runs of each operation with distinct
timestamp sequences against fixed transports. -/
theorem fetchOps_fresh_independent_C9_witness :
    getCharacterId md5h0 "priv" "pub" "1.0" cserverOK "Iron Man"
      = getCharacterId md5h0 "priv" "pub" "2.0" cserverOK "Iron Man"
    ∧ getCharacterInfoFromUrl md5h0 "priv" "pub" "1.0" cserverOK
      = getCharacterInfoFromUrl md5h0 "priv" "pub" "2.0" cserverOK
    ∧ getStoryData md5h0 "priv" "pub" "1.0" stserverOK 108992
      = getStoryData md5h0 "priv" "pub" "2.0" stserverOK 108992
    ∧ getCharacterStories md5h0 "priv" "pub" clock0 serverEmptyStories 7
      = getCharacterStories md5h0 "priv" "pub" clockB serverEmptyStories 7 :=
  fetchOps_fresh_independent_C9 md5h0 "priv" "pub" cserverOK cserverOK stserverOK
    serverEmptyStories "1.0" "2.0" clock0 clockB "Iron Man" 7 108992
    (fun _ _ _ => rfl) (fun _ _ _ => rfl) (fun _ _ _ => rfl) (fun _ _ _ => rfl)
